import Mathlib

/-!
Shallow embedding of the token-lifecycle and request-authentication
subsystem of the Rah-e-Ayandeh repository (`src/utils/auth.js`, the error
classes of `src/utils/errorHandler.js`, the user model `src/models/User.js`
and the profile route of `src/routes/auth.js`).

Modelling conventions:
* JWT strings are modelled symbolically by the type `Str`: a string is
  either ordinary character data (`Str.lit`) or a signed token
  (`Str.jwt payload secret iat exp`).  `jsonwebtoken` signing is
  deterministic, so two JWTs are byte-for-byte equal exactly when their
  payload, secret, issued-at and expiry coincide; structural equality on
  `Str` captures byte-for-byte string equality.
* Redis is modelled by `Store`, an association list from keys to the
  stored string together with the TTL (in seconds) passed to `SET ... EX`.
* Time is an explicit `Nat` parameter (seconds); `jwt.sign` stamps
  `iat := now` and `exp := now + expiresIn`, and `jwt.verify` succeeds
  when the secret matches and `now < exp`.
* Async store calls may fail; a `Bool` flag on each operation says whether
  the underlying Redis call throws, so that the `try`/`catch` structure of
  the source is modelled faithfully.
* Thrown `AppError`s are modelled with `Except AppError`.
-/

namespace RahAyandeh

/-- Payload of an access token: `{ id, username, email, role }`
(`generateAccessToken`, src/utils/auth.js). -/
structure AccessClaims where
  id : Nat
  username : String
  email : String
  role : String
deriving DecidableEq

/-- Payload of a refresh token: `{ id, type: 'refresh' }`
(`generateRefreshToken`, src/utils/auth.js). -/
structure RefreshClaims where
  id : Nat
  type : String
deriving DecidableEq

/-- A decoded JWT payload is one of the two claim bundles. -/
inductive Payload where
  | access (c : AccessClaims)
  | refresh (c : RefreshClaims)
deriving DecidableEq

/-- The `id` field present in both payload shapes (`decoded.id`). -/
def Payload.userId : Payload → Nat
  | .access c => c.id
  | .refresh c => c.id

/-- Symbolic model of JavaScript strings flowing through the subsystem:
either ordinary character data or a signed JWT.  `jsonwebtoken` signing is
deterministic, so structural equality models byte-for-byte equality of the
serialized strings. -/
inductive Str where
  | lit (s : String)
  | jwt (payload : Payload) (secret : String) (iat : Nat) (exp : Nat)
deriving DecidableEq

/-- The identity reference a JWT string carries (`none` for a non-JWT). -/
def Str.ownerId : Str → Option Nat
  | .lit _ => none
  | .jwt p _ _ _ => some p.userId

/-- Lifetime a JWT string was signed with (`exp - iat`; `0` for a non-JWT). -/
def Str.lifetime : Str → Nat
  | .lit _ => 0
  | .jwt _ _ iat e => e - iat

/-- Model of `jwt.sign(payload, secret, { expiresIn })` at time `now`:
stamps `iat := now` and `exp := now + expiresIn`. -/
def jwtSign (payload : Payload) (secret : String) (expiresIn : Nat) (now : Nat) : Str :=
  .jwt payload secret now (now + expiresIn)

/-- Model of `jwt.verify(token, secret)` at time `now`: returns the decoded
payload when the string is a JWT signed with `secret` whose expiry has not
elapsed, and fails (throws, modelled as `none`) otherwise. -/
def jwtVerify (tok : Str) (secret : String) (now : Nat) : Option Payload :=
  match tok with
  | .lit _ => none
  | .jwt p sec _ e => if sec = secret ∧ now < e then some p else none

/-- Model of the `AppError` hierarchy of src/utils/errorHandler.js: an
error carries its HTTP status code and the bilingual message pair. -/
structure AppError where
  statusCode : Nat
  message : String
  errorEn : String
deriving DecidableEq

/-- The `UnauthorizedError` class (HTTP 401). -/
def UnauthorizedError (message errorEn : String) : AppError :=
  ⟨401, message, errorEn⟩

/-- The `ForbiddenError` class (HTTP 403).  Defined in
src/utils/errorHandler.js; the auth module never raises it. -/
def ForbiddenError (message errorEn : String) : AppError :=
  ⟨403, message, errorEn⟩

/-- The `InternalServerError` class (HTTP 500). -/
def InternalServerError (message errorEn : String) : AppError :=
  ⟨500, message, errorEn⟩

/-- Error raised by `verifyAccessToken` on any verification failure. -/
def invalidTokenError : AppError :=
  UnauthorizedError "توکن نامعتبر است. لطفا مجددا وارد شوید" "Invalid token. Please login again"

/-- Error raised by the catch-all of `verifyRefreshToken` on any failure. -/
def refreshFailedError : AppError :=
  UnauthorizedError "توکن منقضی شده است. لطفا مجددا وارد شوید" "Token expired. Please login again"

/-- Error raised by `authenticateToken` when no token is present. -/
def accessTokenRequiredError : AppError :=
  UnauthorizedError "توکن دسترسی الزامی است" "Access token is required"

/-- Error raised by `authorizeRoles` when `req.user` is absent. -/
def loginFirstError : AppError :=
  UnauthorizedError "لطفا ابتدا وارد شوید" "Please login first"

/-- Error raised by `authorizeRoles` when the role is not allowed. -/
def noPermissionError : AppError :=
  UnauthorizedError "شما مجوز دسترسی به این بخش را ندارید" "You do not have permission to access this resource"

/-- Environment configuration consumed by src/utils/auth.js: the two JWT
secrets and the two lifetimes, in seconds. -/
structure Config where
  jwtSecret : String
  jwtExpiresIn : Nat
  jwtRefreshSecret : String
  jwtRefreshExpiresIn : Nat
deriving DecidableEq

/-- The fallback configuration of src/utils/auth.js: secrets
`jwt_fallback_secret` / `jwt_refresh_fallback_secret`, lifetimes 15 minutes
and 7 days. -/
def defaultConfig : Config :=
  ⟨"jwt_fallback_secret", 900, "jwt_refresh_fallback_secret", 604800⟩

/-- Model of the Redis database used as Revocation Store: an association
list from key to the stored string and the TTL (seconds) it was set with. -/
structure Store where
  entries : List (String × Str × Nat)
deriving DecidableEq

/-- Model of `redisGet(key)` on a reachable store. -/
def Store.get (s : Store) (k : String) : Option Str :=
  match s.entries.find? (fun e => e.1 == k) with
  | some e => some e.2.1
  | none => none

/-- Model of `redisSet(key, value, 'EX', ttl)` on a reachable store. -/
def Store.set (s : Store) (k : String) (v : Str) (ttl : Nat) : Store :=
  ⟨(k, v, ttl) :: s.entries.filter (fun e => e.1 != k)⟩

/-- Model of `redisDel(key)` on a reachable store. -/
def Store.del (s : Store) (k : String) : Store :=
  ⟨s.entries.filter (fun e => e.1 != k)⟩

/-- TTL recorded for a key, as passed to the `SET ... EX` that wrote it. -/
def Store.ttlOf (s : Store) (k : String) : Option Nat :=
  match s.entries.find? (fun e => e.1 == k) with
  | some e => some e.2.2
  | none => none

/-- A user document of src/models/User.js (the fields the auth subsystem
and the profile projections read).  Object ids are modelled as `Nat`. -/
structure UserRec where
  _id : Nat
  username : String
  email : String
  password : String
  firstName : Option String
  lastName : Option String
  role : String
  favoriteUniversities : List Nat
  favoriteJobs : List Nat
  createdAt : Nat
  lastLogin : Option Nat
deriving DecidableEq

/-- The Redis key `refresh_token:<userId>` (src/utils/auth.js). -/
def tokenKey (userId : Nat) : String :=
  "refresh_token:" ++ toString userId

/-- Model of `auth.generateAccessToken(user)`: signs
`{ id, username, email, role }` with the access secret and the configured
access lifetime.  Pure: takes no store. -/
def generateAccessToken (cfg : Config) (now : Nat) (user : UserRec) : Str :=
  jwtSign (.access ⟨user._id, user.username, user.email, user.role⟩)
    cfg.jwtSecret cfg.jwtExpiresIn now

/-- Model of `auth.generateRefreshToken(user)`: signs
`{ id, type: 'refresh' }` with the refresh secret and the configured
refresh lifetime, then `await redisSet(tokenKey, refreshToken, 'EX',
60 * 60 * 24 * 7)`.  `setFails` says whether the awaited Redis write
throws; the function has no `try`/`catch`, so a write failure propagates
and no token is returned. -/
def generateRefreshToken (cfg : Config) (now : Nat) (user : UserRec) (store : Store)
    (setFails : Bool) : Except String (Str × Store) :=
  let refreshToken :=
    jwtSign (.refresh ⟨user._id, "refresh"⟩) cfg.jwtRefreshSecret cfg.jwtRefreshExpiresIn now
  if setFails then
    .error "redis set failed"
  else
    .ok (refreshToken, store.set (tokenKey user._id) refreshToken (60 * 60 * 24 * 7))

/-- Model of `auth.verifyAccessToken(token)`: `jwt.verify` against the
access secret; any failure becomes `UnauthorizedError` (401).  Pure: takes
no store. -/
def verifyAccessToken (cfg : Config) (now : Nat) (tok : Str) : Except AppError Payload :=
  match jwtVerify tok cfg.jwtSecret now with
  | some decoded => .ok decoded
  | none => .error invalidTokenError

/-- Model of `auth.verifyRefreshToken(token)`: inside one `try` block,
`jwt.verify` against the refresh secret, then `await redisGet` of
`refresh_token:<decoded.id>`, then the check
`!storedToken || storedToken !== token`.  The `catch` wraps every failure
on these paths — including a thrown Redis error, modelled by `getFails` —
into the single `UnauthorizedError` `refreshFailedError`. -/
def verifyRefreshToken (cfg : Config) (now : Nat) (tok : Str) (store : Store)
    (getFails : Bool) : Except AppError Payload :=
  match jwtVerify tok cfg.jwtRefreshSecret now with
  | none => .error refreshFailedError
  | some decoded =>
    if getFails then
      .error refreshFailedError
    else
      match store.get (tokenKey decoded.userId) with
      | none => .error refreshFailedError
      | some stored =>
        if stored = tok then .ok decoded else .error refreshFailedError

/-- Model of `auth.invalidateRefreshToken(userId)`: `await redisDel` of the
key; the delete is unconditional and its result is ignored. -/
def invalidateRefreshToken (userId : Nat) (store : Store) : Store :=
  store.del (tokenKey userId)

/-- Model of `authHeader && authHeader.split(' ')[1]`.  The header is
represented by the list of its parts after splitting on the single space
character (`none` when the header is absent); index `[1]` is the second
part, and JavaScript falsiness makes both an out-of-range index
(`undefined`) and an empty-string part count as "no token". -/
def extractBearer (authHeader : Option (List Str)) : Option Str :=
  match authHeader with
  | none => none
  | some parts =>
    match parts.drop 1 with
    | [] => none
    | t :: _ => if t = .lit "" then none else some t

/-- Model of the `auth.authenticateToken` middleware: when no token is
extracted it throws `accessTokenRequiredError`; otherwise it delegates to
`verifyAccessToken`, and on success sets `req.user := decoded` and calls
`next()` (modelled as `.ok decoded`), while a verification error is passed
to `next(error)` unchanged (modelled as the same `.error`). -/
def authenticateToken (cfg : Config) (now : Nat) (authHeader : Option (List Str)) :
    Except AppError Payload :=
  match extractBearer authHeader with
  | none => .error accessTokenRequiredError
  | some tok => verifyAccessToken cfg now tok

/-- The `role` field of `req.user` (`undefined`, i.e. `none`, on a payload
without one). -/
def Payload.roleOf : Payload → Option String
  | .access c => some c.role
  | .refresh _ => none

/-- Model of `auth.authorizeRoles(roles)` applied to the `req.user` set by
`authenticateToken` (or `none` when no guard ran): missing user throws
`loginFirstError`; a role outside `roles` throws `noPermissionError`; both
are `UnauthorizedError`s (status 401). -/
def authorizeRoles (roles : List String) (reqUser : Option Payload) : Except AppError Unit :=
  match reqUser with
  | none => .error loginFirstError
  | some u =>
    match u.roleOf with
    | some r => if roles.contains r then .ok () else .error noPermissionError
    | none => .error noPermissionError

/-- The object returned by `userSchema.methods.getProfile`
(src/models/User.js): every stored field except the password hash. -/
structure Profile where
  id : Nat
  username : String
  email : String
  firstName : Option String
  lastName : Option String
  role : String
  favoriteUniversities : List Nat
  favoriteJobs : List Nat
  createdAt : Nat
deriving DecidableEq

/-- Model of `userSchema.methods.getProfile`. -/
def getProfile (u : UserRec) : Profile :=
  ⟨u._id, u.username, u.email, u.firstName, u.lastName, u.role,
    u.favoriteUniversities, u.favoriteJobs, u.createdAt⟩

/-- The `user` object serialized by the `GET /auth/profile` handler
(src/routes/auth.js): `firstName`/`lastName` default to the empty string. -/
structure ProfileResponse where
  id : Nat
  username : String
  email : String
  firstName : String
  lastName : String
  role : String
  createdAt : Nat
  lastLogin : Option Nat
deriving DecidableEq

/-- Model of the projection built by the `GET /auth/profile` handler. -/
def profileResponse (u : UserRec) : ProfileResponse :=
  ⟨u._id, u.username, u.email, u.firstName.getD "", u.lastName.getD "",
    u.role, u.createdAt, u.lastLogin⟩

/-!  Concrete fixtures used by witnesses and counterexamples. -/

/-- A concrete user document. -/
def cexUser : UserRec :=
  ⟨1, "alice", "a@x.com", "hash1", none, none, "user", [], [], 0, none⟩

/-- The empty Revocation Store. -/
def emptyStore : Store := ⟨[]⟩

/-- The refresh token minted for `cexUser` at time `0` under the default
configuration. -/
def cexRefreshTok : Str :=
  Str.jwt (Payload.refresh ⟨1, "refresh"⟩) "jwt_refresh_fallback_secret" 0 604800

/-- The store after issuing `cexRefreshTok`. -/
def cexStore1 : Store := ⟨[(tokenKey 1, cexRefreshTok, 604800)]⟩

/-- The refresh token minted for `cexUser` at time `1`. -/
def cexRefreshTok2 : Str :=
  Str.jwt (Payload.refresh ⟨1, "refresh"⟩) "jwt_refresh_fallback_secret" 1 604801

/-- The store after issuing `cexRefreshTok` at time `0` and then
`cexRefreshTok2` at time `1`. -/
def cexStore2 : Store := ⟨[(tokenKey 1, cexRefreshTok2, 604800)]⟩

/-- The access token minted for `cexUser` at time `0` under the default
configuration. -/
def cexAccessTok : Str :=
  Str.jwt (Payload.access ⟨1, "alice", "a@x.com", "user"⟩) "jwt_fallback_secret" 0 900

/-- A configuration whose refresh lifetime (1 day) differs from the default
7 days. -/
def cexConfig : Config :=
  ⟨"jwt_fallback_secret", 900, "jwt_refresh_fallback_secret", 86400⟩

/-!  Helper lemmas about the association-list store. -/

/-- Filtering a list twice with the same predicate equals filtering once. -/
theorem filter_filter_self {α : Type} (p : α → Bool) (l : List α) :
    (l.filter p).filter p = l.filter p := by
  induction l with
  | nil => rfl
  | cons a t ih => cases h : p a <;> simp [List.filter_cons, h, ih]

/-- After removing every entry whose key equals `k`, no entry with key `k`
can be found. -/
theorem find?_filter_bne (k : String) (l : List (String × Str × Nat)) :
    (l.filter (fun e => e.1 != k)).find? (fun e => e.1 == k) = none := by
  induction l with
  | nil => rfl
  | cons a t ih => cases h : a.1 == k <;> simp [List.filter_cons, List.find?_cons, bne, h, ih]

/-- Removing entries with a key that occurs nowhere leaves the list
unchanged. -/
theorem filter_bne_of_find?_none (k : String) (l : List (String × Str × Nat))
    (h : l.find? (fun e => e.1 == k) = none) :
    l.filter (fun e => e.1 != k) = l := by
  induction l with
  | nil => rfl
  | cons a t ih =>
    cases ha : a.1 == k
    · rw [List.find?_cons, ha] at h
      have hb : (a.1 != k) = true := by simp [bne, ha]
      rw [List.filter_cons, if_pos hb]
      rw [ih h]
    · rw [List.find?_cons, ha] at h
      cases h

/-- Reading the key just written returns the written value. -/
theorem Store.get_set_self (s : Store) (k : String) (v : Str) (ttl : Nat) :
    (s.set k v ttl).get k = some v := by
  simp [Store.get, Store.set, List.find?_cons]

/-- The TTL recorded for the key just written is the TTL passed to the
write. -/
theorem Store.ttlOf_set_self (s : Store) (k : String) (v : Str) (ttl : Nat) :
    (s.set k v ttl).ttlOf k = some ttl := by
  simp [Store.ttlOf, Store.set, List.find?_cons]

/-- Reading a key just deleted returns nothing. -/
theorem Store.get_del_self (s : Store) (k : String) :
    (s.del k).get k = none := by
  unfold Store.get Store.del
  rw [find?_filter_bne]

/-!  Claim theorems. -/

/-- C1: on a reachable store, `verifyRefreshToken` returns decoded claims
`d` exactly when the token is a JWT signed with the refresh secret whose
expiry has not elapsed and the store entry under
`refresh_token:<identity id>` equals the presented token byte-for-byte;
every other outcome is the `UnauthorizedError` (HTTP 401)
`refreshFailedError`, in particular whenever the cryptographic/temporal
check alone already fails, regardless of store state. -/
theorem verifyRefreshToken_correct (cfg : Config) (now : Nat) (tok : Str) (store : Store) :
    (∀ d, verifyRefreshToken cfg now tok store false = Except.ok d ↔
        (jwtVerify tok cfg.jwtRefreshSecret now = some d ∧
         store.get (tokenKey d.userId) = some tok)) ∧
    (∀ e, verifyRefreshToken cfg now tok store false = Except.error e →
        e = refreshFailedError ∧ e.statusCode = 401) ∧
    (jwtVerify tok cfg.jwtRefreshSecret now = none →
        verifyRefreshToken cfg now tok store false = Except.error refreshFailedError) := by
  refine ⟨?_, ?_, ?_⟩
  · intro d
    unfold verifyRefreshToken
    constructor
    · intro h
      split at h
      · cases h
      · rename_i d0 hv
        simp only [if_neg Bool.false_ne_true] at h
        split at h
        · cases h
        · rename_i stored hg
          split at h
          · rename_i hst
            injection h with h
            subst h
            exact ⟨hv, by rw [hg, hst]⟩
          · cases h
    · rintro ⟨hv, hg⟩
      rw [hv]
      simp [hg]
  · intro e h
    unfold verifyRefreshToken at h
    split at h
    · injection h with h
      exact ⟨h.symm, by rw [← h]; rfl⟩
    · simp only [if_neg Bool.false_ne_true] at h
      split at h
      · injection h with h
        exact ⟨h.symm, by rw [← h]; rfl⟩
      · split at h
        · cases h
        · injection h with h
          exact ⟨h.symm, by rw [← h]; rfl⟩
  · intro hv
    unfold verifyRefreshToken
    rw [hv]

/-- Witness for C1: a concrete valid refresh token with a matching store
entry verifies to its claims. -/
theorem verifyRefreshToken_correct_witness :
    verifyRefreshToken defaultConfig 1 cexRefreshTok cexStore1 false =
      Except.ok (Payload.refresh ⟨1, "refresh"⟩) :=
  ((verifyRefreshToken_correct defaultConfig 1 cexRefreshTok cexStore1).1
      (Payload.refresh ⟨1, "refresh"⟩)).mpr ⟨by decide, by decide⟩

/-- C5 counterexample: when the Redis read throws during refresh-token
verification of a concrete in-date token, the enclosing operation fails
with the `UnauthorizedError` (HTTP 401) `refreshFailedError`, not with an
`InternalServerError` (HTTP 500) as the claim states. -/
theorem storeFailure_counterexample :
    verifyRefreshToken defaultConfig 1 cexRefreshTok cexStore1 true =
      Except.error refreshFailedError ∧
    refreshFailedError.statusCode = 401 ∧
    refreshFailedError.statusCode ≠ 500 := by
  refine ⟨rfl, rfl, by decide⟩

/-- C5 amended: a failing Revocation Store call during refresh-token
verification is swallowed by the function's catch-all, which raises the
same constant `UnauthorizedError` (HTTP 401) as every other verification
failure; the error is independent of the store, so no store internals
reach the caller, but no `InternalServerError` (HTTP 500) is raised. -/
theorem storeFailure_wrapped (cfg : Config) (now : Nat) (tok : Str) (store : Store) :
    verifyRefreshToken cfg now tok store true = Except.error refreshFailedError ∧
    refreshFailedError.statusCode = 401 := by
  constructor
  · unfold verifyRefreshToken
    rcases hv : jwtVerify tok cfg.jwtRefreshSecret now with _ | d0
    · rfl
    · simp
  · rfl

/-- C6: for every identity, verifying the access token just issued for it
succeeds with no store involved (neither function takes a store), and the
decoded claims carry the identity's identifier; the only assumption is the
configured access-token lifetime being positive (default 15 minutes). -/
theorem accessToken_roundTrip (cfg : Config) (now : Nat) (user : UserRec)
    (h : 0 < cfg.jwtExpiresIn) :
    verifyAccessToken cfg now (generateAccessToken cfg now user) =
      Except.ok (Payload.access ⟨user._id, user.username, user.email, user.role⟩) ∧
    (Payload.access ⟨user._id, user.username, user.email, user.role⟩).userId = user._id := by
  constructor
  · unfold verifyAccessToken generateAccessToken jwtSign jwtVerify
    simp [Nat.lt_add_of_pos_right h]
  · rfl

/-- Witness for C6: the round trip at a concrete identity and the default
configuration. -/
theorem accessToken_roundTrip_witness :
    verifyAccessToken defaultConfig 0 (generateAccessToken defaultConfig 0 cexUser) =
      Except.ok (Payload.access ⟨1, "alice", "a@x.com", "user"⟩) ∧
    (Payload.access (⟨1, "alice", "a@x.com", "user"⟩ : AccessClaims)).userId = 1 :=
  accessToken_roundTrip defaultConfig 0 cexUser (by decide)

/-- C10: neither the `getProfile` projection of the user model nor the
`GET /auth/profile` response object depends on the stored password hash:
two user records that differ only in their password field produce
identical outputs of both projections (and the projections' result types
have no password field at all). -/
theorem profile_no_password (u : UserRec) (p : String) :
    getProfile { u with password := p } = getProfile u ∧
    profileResponse { u with password := p } = profileResponse u :=
  ⟨rfl, rfl⟩

/-- C2 counterexample: `jwt.sign` is deterministic and stamps `iat` with
second granularity, so two sequential issuances within the same second
yield byte-identical tokens; then the first-issued token still verifies
afterwards, contradicting the claim that it always fails. -/
theorem twiceIssued_sameSecond_counterexample :
    generateRefreshToken defaultConfig 0 cexUser emptyStore false =
      Except.ok (cexRefreshTok, cexStore1) ∧
    generateRefreshToken defaultConfig 0 cexUser cexStore1 false =
      Except.ok (cexRefreshTok, cexStore1) ∧
    verifyRefreshToken defaultConfig 1 cexRefreshTok cexStore1 false =
      Except.ok (Payload.refresh ⟨1, "refresh"⟩) :=
  ⟨rfl, rfl, rfl⟩

/-- C2 amended: when `issueRefreshToken(identity)` is called twice in
sequence at distinct timestamps (so the two signed tokens differ), the
second write overwrites the single store entry for the identity:
afterwards the first token fails with the `UnauthorizedError` (HTTP 401)
`refreshFailedError` while the second verifies to the identity's claims. -/
theorem refreshToken_supersede (cfg : Config) (t1 t2 now : Nat) (user : UserRec)
    (store store1 store2 : Store) (tok1 tok2 : Str)
    (h1 : generateRefreshToken cfg t1 user store false = Except.ok (tok1, store1))
    (h2 : generateRefreshToken cfg t2 user store1 false = Except.ok (tok2, store2))
    (hne : t1 ≠ t2) (hnow : now < t2 + cfg.jwtRefreshExpiresIn) :
    verifyRefreshToken cfg now tok1 store2 false = Except.error refreshFailedError ∧
    verifyRefreshToken cfg now tok2 store2 false =
      Except.ok (Payload.refresh ⟨user._id, "refresh"⟩) := by
  unfold generateRefreshToken at h1 h2
  simp only [if_neg Bool.false_ne_true] at h1 h2
  injection h1 with h1
  injection h1 with h1a h1b
  injection h2 with h2
  injection h2 with h2a h2b
  subst h1a
  subst h1b
  subst h2a
  subst h2b
  constructor
  · by_cases hexp : now < t1 + cfg.jwtRefreshExpiresIn
    · simp [verifyRefreshToken, jwtSign, jwtVerify, Payload.userId, hexp,
        Store.get_set_self, Str.jwt.injEq, Ne.symm hne]
    · simp [verifyRefreshToken, jwtSign, jwtVerify, hexp]
  · simp [verifyRefreshToken, jwtSign, jwtVerify, Payload.userId, hnow, Store.get_set_self]

/-- Witness for C2 amended: two issuances at times 0 and 1; at time 2 the
first token is rejected and the second accepted. -/
theorem refreshToken_supersede_witness :
    verifyRefreshToken defaultConfig 2 cexRefreshTok cexStore2 false =
      Except.error refreshFailedError ∧
    verifyRefreshToken defaultConfig 2 cexRefreshTok2 cexStore2 false =
      Except.ok (Payload.refresh ⟨1, "refresh"⟩) :=
  refreshToken_supersede defaultConfig 0 1 2 cexUser emptyStore cexStore1 cexStore2
    cexRefreshTok cexRefreshTok2 rfl rfl (by decide) (by decide)

/-- C3 counterexample: with the refresh lifetime configured to 1 day, the
issued token expires after 86400 seconds but the store entry is still
written with the hard-coded TTL 604800 seconds; the TTL does not equal the
token's own expiry. -/
theorem ttl_counterexample :
    generateRefreshToken cexConfig 0 cexUser emptyStore false =
      Except.ok
        (Str.jwt (Payload.refresh ⟨1, "refresh"⟩) "jwt_refresh_fallback_secret" 0 86400,
         Store.mk [(tokenKey 1,
           Str.jwt (Payload.refresh ⟨1, "refresh"⟩) "jwt_refresh_fallback_secret" 0 86400,
           604800)]) ∧
    (Str.jwt (Payload.refresh ⟨1, "refresh"⟩) "jwt_refresh_fallback_secret" 0 86400).lifetime
      = 86400 ∧
    (Store.mk [(tokenKey 1,
        Str.jwt (Payload.refresh ⟨1, "refresh"⟩) "jwt_refresh_fallback_secret" 0 86400,
        604800)]).ttlOf (tokenKey 1) = some 604800 ∧
    (86400 : Nat) ≠ 604800 :=
  ⟨rfl, rfl, rfl, by decide⟩

/-- C3 amended: `issueRefreshToken` writes the signed token under
`refresh_token:<identity id>` with the fixed TTL 604800 seconds (7 days)
regardless of the configured token lifetime — the two coincide only under
the default configuration — and a failing store write propagates without
returning a token. -/
theorem issueRefreshToken_spec (cfg : Config) (now : Nat) (user : UserRec) (store : Store) :
    generateRefreshToken cfg now user store true = Except.error "redis set failed" ∧
    generateRefreshToken cfg now user store false =
      Except.ok
        (jwtSign (Payload.refresh ⟨user._id, "refresh"⟩) cfg.jwtRefreshSecret
           cfg.jwtRefreshExpiresIn now,
         store.set (tokenKey user._id)
           (jwtSign (Payload.refresh ⟨user._id, "refresh"⟩) cfg.jwtRefreshSecret
              cfg.jwtRefreshExpiresIn now)
           604800) ∧
    (store.set (tokenKey user._id)
        (jwtSign (Payload.refresh ⟨user._id, "refresh"⟩) cfg.jwtRefreshSecret
           cfg.jwtRefreshExpiresIn now)
        604800).ttlOf (tokenKey user._id) = some 604800 ∧
    (jwtSign (Payload.refresh ⟨user._id, "refresh"⟩) cfg.jwtRefreshSecret
        cfg.jwtRefreshExpiresIn now).lifetime = cfg.jwtRefreshExpiresIn ∧
    defaultConfig.jwtRefreshExpiresIn = 604800 := by
  refine ⟨rfl, rfl, Store.ttlOf_set_self _ _ _ _, ?_, rfl⟩
  simp [jwtSign, Str.lifetime]

/-- C4 counterexample: a request whose attached role is outside
`allowedRoles` is rejected with the `UnauthorizedError`
`noPermissionError`, whose status code is 401, not the 403 of an
`AuthorizationError` (`ForbiddenError`). -/
theorem roleGate_403_counterexample :
    authorizeRoles ["admin"] (some (Payload.access ⟨1, "alice", "a@x.com", "user"⟩)) =
      Except.error noPermissionError ∧
    noPermissionError.statusCode = 401 ∧
    noPermissionError.statusCode ≠ 403 :=
  ⟨rfl, rfl, by decide⟩

/-- C4 amended: `authorizeRoles(allowedRoles)` rejects a request with no
attached identity with the `UnauthorizedError` `loginFirstError` (HTTP
401), and rejects an attached identity whose role is not a member of
`allowedRoles` with the `UnauthorizedError` `noPermissionError` — also
HTTP 401, not a 403 `ForbiddenError`; an allowed role passes. -/
theorem authorizeRoles_spec (roles : List String) (u : Payload) :
    authorizeRoles roles none = Except.error loginFirstError ∧
    loginFirstError.statusCode = 401 ∧
    noPermissionError.statusCode = 401 ∧
    (u.roleOf = none → authorizeRoles roles (some u) = Except.error noPermissionError) ∧
    (∀ r, u.roleOf = some r → roles.contains r = false →
      authorizeRoles roles (some u) = Except.error noPermissionError) ∧
    (∀ r, u.roleOf = some r → roles.contains r = true →
      authorizeRoles roles (some u) = Except.ok ()) := by
  refine ⟨rfl, rfl, rfl, ?_, ?_, ?_⟩
  · intro h
    simp [authorizeRoles, h]
  · intro r h hc
    simp [authorizeRoles, h]
    simpa using hc
  · intro r h hc
    simp [authorizeRoles, h]
    simpa using hc

/-- Witness for C4 amended: role "user" against allowed roles ["admin"]
yields the 401 `noPermissionError`. -/
theorem authorizeRoles_spec_witness :
    authorizeRoles ["admin"] (some (Payload.access ⟨1, "alice", "a@x.com", "user"⟩)) =
      Except.error noPermissionError :=
  (authorizeRoles_spec ["admin"] (Payload.access ⟨1, "alice", "a@x.com", "user"⟩)).2.2.2.2.1
    "user" rfl (by decide)

/-- C7: `invalidateRefreshToken` deletes the store entry of the identity
and is idempotent; when no entry exists it leaves the store unchanged (and,
being total, never throws); afterwards every refresh token carrying that
identity's id — in particular every previously issued one — fails
verification with the `UnauthorizedError` (HTTP 401)
`refreshFailedError`. -/
theorem invalidate_spec (cfg : Config) (userId now : Nat) (store : Store) (tok : Str)
    (hid : Str.ownerId tok = some userId) :
    invalidateRefreshToken userId (invalidateRefreshToken userId store) =
      invalidateRefreshToken userId store ∧
    (Store.get store (tokenKey userId) = none → invalidateRefreshToken userId store = store) ∧
    verifyRefreshToken cfg now tok (invalidateRefreshToken userId store) false =
      Except.error refreshFailedError ∧
    refreshFailedError.statusCode = 401 := by
  refine ⟨?_, ?_, ?_, rfl⟩
  · simp [invalidateRefreshToken, Store.del, filter_filter_self]
  · intro h
    have hf : store.entries.find? (fun e => e.1 == tokenKey userId) = none := by
      rcases hfind : store.entries.find? (fun e => e.1 == tokenKey userId) with _ | a
      · exact hfind
      · unfold Store.get at h
        rw [hfind] at h
        cases h
    simp [invalidateRefreshToken, Store.del, filter_bne_of_find?_none _ _ hf]
  · cases tok with
    | lit s => simp [verifyRefreshToken, jwtVerify]
    | jwt p sec iat e =>
      simp only [Str.ownerId, Option.some.injEq] at hid
      unfold verifyRefreshToken
      rcases hv : jwtVerify (Str.jwt p sec iat e) cfg.jwtRefreshSecret now with _ | d
      · rfl
      · have hd : d = p := by
          have hv2 : (if sec = cfg.jwtRefreshSecret ∧ now < e then some p else none) = some d := hv
          by_cases hc : sec = cfg.jwtRefreshSecret ∧ now < e
          · rw [if_pos hc] at hv2
            injection hv2 with hv2
            exact hv2.symm
          · rw [if_neg hc] at hv2
            cases hv2
        subst hd
        simp [invalidateRefreshToken, hid, Store.get_del_self]

/-- Witness for C7: invalidating identity 1 makes its previously issued
concrete refresh token fail verification. -/
theorem invalidate_spec_witness :
    verifyRefreshToken defaultConfig 1 cexRefreshTok (invalidateRefreshToken 1 cexStore1) false =
      Except.error refreshFailedError :=
  (invalidate_spec defaultConfig 1 1 cexStore1 cexRefreshTok rfl).2.2.1

/-- C8: the `authenticateToken` middleware rejects a request without an
extractable bearer credential with the constant `UnauthorizedError`
"Access token is required" (HTTP 401); with a credential present its
outcome is exactly that of `verifyAccessToken` — the decoded claims are
attached on success, and a verification error propagates unchanged with no
anonymous fallback. -/
theorem authenticate_spec (cfg : Config) (now : Nat) (hdr : Option (List Str)) (tok : Str) :
    (extractBearer hdr = none →
       authenticateToken cfg now hdr = Except.error accessTokenRequiredError) ∧
    accessTokenRequiredError.statusCode = 401 ∧
    accessTokenRequiredError.errorEn = "Access token is required" ∧
    (extractBearer hdr = some tok →
       authenticateToken cfg now hdr = verifyAccessToken cfg now tok) := by
  refine ⟨?_, rfl, rfl, ?_⟩ <;> intro h <;> unfold authenticateToken <;> rw [h]

/-- Witness for C8: an absent authorization header is rejected with the
"Access token is required" error. -/
theorem authenticate_spec_witness :
    authenticateToken defaultConfig 0 none = Except.error accessTokenRequiredError :=
  (authenticate_spec defaultConfig 0 none (Str.lit "")).1 rfl

/-- C9: the middleware never inspects the authorization scheme: whatever
the first header part is (for example "Basic"), the second
space-separated part is handed to `verifyAccessToken` as the token, while
a header consisting of a single part — or no header — is treated as an
absent token and rejected with the "Access token is required" error. -/
theorem scheme_not_checked (cfg : Config) (now : Nat) (first second single : Str)
    (rest : List Str) (hne : second ≠ Str.lit "") :
    authenticateToken cfg now (some (first :: second :: rest)) =
      verifyAccessToken cfg now second ∧
    authenticateToken cfg now (some [single]) = Except.error accessTokenRequiredError ∧
    authenticateToken cfg now none = Except.error accessTokenRequiredError := by
  refine ⟨?_, rfl, rfl⟩
  unfold authenticateToken extractBearer
  simp [hne]

/-- Witness for C9: a "Basic"-scheme header carrying an access token is
verified exactly like a bearer header, and a one-part header is
rejected. -/
theorem scheme_not_checked_witness :
    authenticateToken defaultConfig 0 (some [Str.lit "Basic", cexAccessTok]) =
      verifyAccessToken defaultConfig 0 cexAccessTok ∧
    authenticateToken defaultConfig 0 (some [Str.lit "Bearer"]) =
      Except.error accessTokenRequiredError ∧
    authenticateToken defaultConfig 0 none = Except.error accessTokenRequiredError :=
  scheme_not_checked defaultConfig 0 (Str.lit "Basic") cexAccessTok (Str.lit "Bearer") []
    (by decide)

/-- Witness for C3 amended: a failing write at concrete inputs aborts the
issuance. -/
theorem issueRefreshToken_spec_witness :
    generateRefreshToken defaultConfig 0 cexUser emptyStore true =
      Except.error "redis set failed" :=
  (issueRefreshToken_spec defaultConfig 0 cexUser emptyStore).1

/-- Witness for C5 amended: a failing store read on a concrete input yields
the 401 error. -/
theorem storeFailure_wrapped_witness :
    verifyRefreshToken defaultConfig 0 (Str.lit "x") emptyStore true =
      Except.error refreshFailedError :=
  (storeFailure_wrapped defaultConfig 0 (Str.lit "x") emptyStore).1

/-- Witness for C10: changing a concrete user's password hash leaves the
profile projection unchanged. -/
theorem profile_no_password_witness :
    getProfile { cexUser with password := "other" } = getProfile cexUser :=
  (profile_no_password cexUser "other").1

end RahAyandeh
